import Mathlib

/-!
Verification of the tokenizer-loading core (`src/concurrent_loading.rs`).

The file `src/concurrent_loading.rs` exposes two functions:

* `load_harmony_encoding_safe(name)` — online loading serialized through a
  process-wide `Mutex` held inside a `OnceLock` (`DOWNLOAD_MUTEX`); under the
  lock it delegates to `Encoding::load_from_name`.
* `load_harmony_encoding_from_file(path, encoding_name)` — offline loading:
  resolve the encoding name, parse the vocabulary file from the local path,
  assemble the special-token table (base specials plus a per-variant reserved
  range) and construct a `CoreBPE`.

The collaborators `Encoding::from_name`, `Encoding::special_tokens`,
`Encoding::pattern`, `load_tiktoken_vocab_file`, `CoreBPE::new` and
`Encoding::load_from_name` live in the crate modules `tiktoken.rs` /
`tiktoken_ext.rs`, which are not part of the sources under verification; they
are modelled here from the specification's contracts for
`EncodingCatalog.lookup`, `VocabFileParser`, `TokenizerBuilder` and
`NameToTokenizerPipeline`, either as explicit parameters (an `Env` record) or
as spec-modelled checking functions.
-/

namespace Harmony

/-- A vocabulary token is a byte sequence. -/
abbrev Token := List Nat

/-- Vocabulary: mapping from byte-sequence token to integer rank
(spec §3: externally produced, opaque beyond rank uniqueness). -/
abbrev Vocab := List (Token × Nat)

/-- The enumerated encoding variants matched by `load_harmony_encoding_from_file`:
`Encoding::O200kHarmony`, `Encoding::O200kBase`, and the default-style variants
covered by the catch-all `_` arm (spec §4.3: a third variant declares no
additional reserved tokens). -/
inductive Encoding where
  | O200kHarmony
  | O200kBase
  | Other
deriving DecidableEq, Repr

/-- Modelled from the spec: `EncodingCatalog.lookup` / `Encoding::from_name`
(in `tiktoken_ext`, not under the verified sources): a closed catalog of known
variants, resolved without any I/O; unknown names yield no descriptor. The
spec names the variants "o200k_harmony" and "o200k_base"; the name of the
third, default-style variant is not given by the spec, so the modelled
catalog contains the two named variants. -/
def Encoding.from_name : String → Option Encoding
  | "o200k_harmony" => some .O200kHarmony
  | "o200k_base" => some .O200kBase
  | _ => none

/-- The error type `LoadError` of `tiktoken_ext`, as surfaced by
`concurrent_loading.rs` (spec §6: `UnknownEncodingName(name)`,
`InvalidVocabFile(details)`, `CoreConstructionFailed(details)`). -/
inductive LoadError where
  | UnknownEncodingName (name : String)
  | InvalidTiktokenVocabFile (details : String)
  | CoreBPECreationFailed (details : String)
deriving DecidableEq, Repr

/-- The constructed tokenizer (`CoreBPE`): owns its vocabulary, its combined
special-token set and its split pattern (spec §3: Tokenizer). -/
structure CoreBPE where
  encoder : Vocab
  specialTokens : List (String × Nat)
  pattern : String
deriving DecidableEq, Repr

/-- Modelled from the spec: `TokenizerBuilder` / `CoreBPE::new` (in
`tiktoken.rs`, not under the verified sources) enforces the ID-disjointness
invariants at construction time: special-token IDs pairwise unique and
disjoint from every vocabulary rank; any violation yields an error and no
tokenizer (spec §6, §3 invariants (1)–(3)). -/
def CoreBPE.new (vocab : Vocab) (specials : List (String × Nat)) (pat : String) :
    Except String CoreBPE :=
  if ((specials.map Prod.snd).Nodup ∧
      ∀ id ∈ specials.map Prod.snd, id ∉ vocab.map Prod.snd) then
    .ok ⟨vocab, specials, pat⟩
  else
    .error "special token id duplicated or colliding with a vocabulary rank"

/-- The external collaborators of the offline loader, as parameters:
the per-variant base special tokens and split pattern are descriptor data of
`tiktoken_ext` (not under the verified sources), and
`load_tiktoken_vocab_file` is the external `VocabFileParser`, represented by
the parse result it returns for each path. -/
structure Env where
  special_tokens : Encoding → List (String × Nat)
  pattern : Encoding → String
  load_tiktoken_vocab_file : String → Except String Vocab

/-- `(lo..=hi).map(|id| (format!("<|reserved_{id}|>", id)))` — the synthetic
reserved tokens appended by `load_harmony_encoding_from_file`
(`concurrent_loading.rs` lines 50 and 65). -/
def reservedTokens (lo hi : Nat) : List (String × Nat) :=
  (List.range' lo (hi + 1 - lo)).map fun id => ("<|reserved_" ++ toString id ++ "|>", id)

/-- `load_harmony_encoding_from_file` (`concurrent_loading.rs` lines 26–83):
resolve the encoding name (else `UnknownEncodingName`), parse the vocabulary
from the local file (else `InvalidTiktokenVocabFile`), then construct the
`CoreBPE` with the variant's combined special tokens and pattern (builder
failure surfaced as `CoreBPECreationFailed`). -/
def load_harmony_encoding_from_file (env : Env) (path : String) (encoding_name : String) :
    Except LoadError CoreBPE :=
  match Encoding.from_name encoding_name with
  | none => .error (.UnknownEncodingName encoding_name)
  | some encoding =>
    match env.load_tiktoken_vocab_file path with
    | .error e => .error (.InvalidTiktokenVocabFile e)
    | .ok vocab =>
      match encoding with
      | .O200kHarmony =>
        let specials := env.special_tokens .O200kHarmony ++ reservedTokens 200014 201088
        (CoreBPE.new vocab specials (env.pattern .O200kHarmony)).mapError .CoreBPECreationFailed
      | .O200kBase =>
        let specials := env.special_tokens .O200kBase ++ reservedTokens 199998 201088
        (CoreBPE.new vocab specials (env.pattern .O200kBase)).mapError .CoreBPECreationFailed
      | .Other =>
        (CoreBPE.new vocab (env.special_tokens .Other) (env.pattern .Other)).mapError
          .CoreBPECreationFailed

/-- The combined special-token set assembled by each arm of the `match` in
`load_harmony_encoding_from_file`: base specials of the descriptor plus the
variant's reserved range (none for the default-style variants). -/
def combinedSpecials (env : Env) : Encoding → List (String × Nat)
  | .O200kHarmony => env.special_tokens .O200kHarmony ++ reservedTokens 200014 201088
  | .O200kBase => env.special_tokens .O200kBase ++ reservedTokens 199998 201088
  | .Other => env.special_tokens .Other

/-- Collaborator invocations observable during a load, used to state the
frame/effect claims: `vocabFileRead` (the call to `load_tiktoken_vocab_file`)
is the only filesystem access of the offline path, and `networkPipeline`
(the call to `Encoding::load_from_name`) is the only network-capable call
of the crate. -/
inductive Event where
  | resolveCatalog
  | vocabFileRead
  | buildTokenizer
  | networkPipeline
deriving DecidableEq, Repr

/-- The ordered collaborator-invocation trace of
`load_harmony_encoding_from_file`, mirroring its control flow: name
resolution first; the vocabulary file is read only if the name resolved; the
builder runs only if parsing succeeded. No arm invokes the network-capable
pipeline. -/
def load_from_file_events (env : Env) (path : String) (encoding_name : String) : List Event :=
  match Encoding.from_name encoding_name with
  | none => [.resolveCatalog]
  | some _ =>
    match env.load_tiktoken_vocab_file path with
    | .error _ => [.resolveCatalog, .vocabFileRead]
    | .ok _ => [.resolveCatalog, .vocabFileRead, .buildTokenizer]

/-! ## The online loader and its global guard -/

/-- The observable state of `DOWNLOAD_MUTEX` (a `Mutex<()>` inside a
`OnceLock`): not yet created (`OnceLock` empty), created and free, or
poisoned because a holder panicked mid-section. The holding state is not a
start state of a call: a holder releases before its call returns. -/
inductive MutexState where
  | uninit
  | unlocked
  | poisoned
deriving DecidableEq, Repr

/-- The external `NameToTokenizerPipeline` collaborator
(`Encoding::load_from_name`, in `tiktoken_ext`, not under the verified
sources), as a parameter: the result it produces for each name. -/
structure OnlineEnv where
  load_from_name : String → Except LoadError CoreBPE

/-- Outcome of one `load_harmony_encoding_safe` call: a returned result
together with the final state of the global mutex, or a panic (no value of
any kind returned). -/
inductive SafeOutcome where
  | completed (result : Except LoadError CoreBPE) (finalLock : MutexState)
  | panicked
deriving Repr

/-- `load_harmony_encoding_safe` (`concurrent_loading.rs` lines 13–22) as
observed by a single caller: `get_or_init` materializes the mutex on first
use; `.lock().unwrap()` panics if the mutex is poisoned; otherwise the
pipeline runs under the guard and the scoped `_guard` is dropped (the lock
released) when the function returns, on the success and the error path
alike. -/
def load_harmony_encoding_safe (env : OnlineEnv) (s : MutexState) (name : String) :
    SafeOutcome :=
  let s1 : MutexState :=
    match s with
    | .uninit => .unlocked
    | st => st
  match s1 with
  | .poisoned => .panicked
  | _ => .completed (env.load_from_name name) .unlocked

/-! ## Interleaving model of concurrent `load_harmony_encoding_safe` calls

Threads are identified by natural numbers; each thread calls
`load_harmony_encoding_safe` with its own requested name. A thread is
`acquiring` while blocked on `DOWNLOAD_MUTEX.lock()`, `critical` while it
holds the guard and runs the whole pipeline (resolution, download/cache and
construction), and `done` after the scoped guard is dropped. The lock field
records the current holder. -/

/-- Phase of one thread in a concurrent load. -/
inductive Phase where
  | acquiring
  | critical
  | done
deriving DecidableEq, Repr

/-- Global state of the concurrent system: the holder of `DOWNLOAD_MUTEX`
(if any), each thread's phase, and each thread's requested encoding name
(carried for fidelity; no transition depends on it). -/
structure Sys where
  lock : Option Nat
  phase : Nat → Phase
  reqName : Nat → String

/-- One interleaving step: a blocked thread acquires the free mutex and
enters the critical section, or the holder finishes the pipeline, drops the
scoped guard and leaves. -/
inductive SysStep : Sys → Sys → Prop where
  | acquire (s : Sys) (t : Nat) (hl : s.lock = none) (hp : s.phase t = .acquiring) :
      SysStep s ⟨some t, fun u => if u = t then .critical else s.phase u, s.reqName⟩
  | release (s : Sys) (t : Nat) (hl : s.lock = some t) (hp : s.phase t = .critical) :
      SysStep s ⟨none, fun u => if u = t then .done else s.phase u, s.reqName⟩

/-- Initial states: the mutex is free and every thread is about to acquire. -/
def SysInit (s : Sys) : Prop := s.lock = none ∧ ∀ t, s.phase t = .acquiring

/-- States reachable from an initial state by interleaving steps. -/
inductive SysReachable : Sys → Prop where
  | init (s : Sys) (h : SysInit s) : SysReachable s
  | step (s s' : Sys) (hr : SysReachable s) (hs : SysStep s s') : SysReachable s'

/-- Lock-ownership invariant: a thread inside the critical section is the
recorded holder of the mutex. -/
theorem sysReachable_critical_holds_lock {s : Sys} (hr : SysReachable s) :
    ∀ t, s.phase t = .critical → s.lock = some t := by
  induction hr with
  | init s h =>
    intro t ht
    rw [h.2 t] at ht
    exact absurd ht (by simp)
  | step s s' _ hs ih =>
    cases hs with
    | acquire t hl hp =>
      intro u hu
      simp only at hu ⊢
      by_cases hut : u = t
      · simp [hut]
      · simp only [hut, if_false] at hu
        exact absurd hl (by simp [ih u hu])
    | release t hl hp =>
      intro u hu
      simp only at hu ⊢
      by_cases hut : u = t
      · simp [hut] at hu
      · simp only [hut, if_false] at hu
        have := ih u hu
        rw [hl] at this
        simp at this
        exact absurd this.symm hut

/-! ## Helper lemmas -/

/-- The IDs of the reserved-range tokens are exactly the underlying range. -/
theorem reservedTokens_ids (lo hi : Nat) :
    (reservedTokens lo hi).map Prod.snd = List.range' lo (hi + 1 - lo) := by
  rw [reservedTokens, List.map_map]
  exact List.map_id _

/-- Membership in the reserved-range IDs is the closed interval `[lo, hi]`. -/
theorem mem_reservedTokens_ids {lo hi id : Nat} (h : lo ≤ hi) :
    id ∈ (reservedTokens lo hi).map Prod.snd ↔ lo ≤ id ∧ id ≤ hi := by
  rw [reservedTokens_ids, List.mem_range'_1]
  omega

/-- The reserved-range IDs are pairwise distinct. -/
theorem reservedTokens_ids_nodup (lo hi : Nat) :
    ((reservedTokens lo hi).map Prod.snd).Nodup := by
  rw [reservedTokens_ids]
  exact List.nodup_range' lo (hi + 1 - lo)

/-- The reserved range contributes one token per integer in `[lo, hi]`. -/
theorem reservedTokens_length (lo hi : Nat) :
    (reservedTokens lo hi).length = hi + 1 - lo := by
  simp [reservedTokens]

/-- The synthetic token for an ID in `[lo, hi]` occurs in the reserved range. -/
theorem mem_reservedTokens_of {lo hi id : Nat} (h1 : lo ≤ id) (h2 : id ≤ hi) :
    ("<|reserved_" ++ toString id ++ "|>", id) ∈ reservedTokens lo hi := by
  refine List.mem_map_of_mem _ ?_
  rw [List.mem_range'_1]
  omega

/-- Appending a reserved range whose interval lies strictly above every base
special-token ID keeps the combined ID list duplicate-free. -/
theorem nodup_base_append_reserved (base : List (String × Nat)) (lo hi : Nat)
    (hb : (base.map Prod.snd).Nodup) (hlt : ∀ id ∈ base.map Prod.snd, id < lo) :
    (((base ++ reservedTokens lo hi).map Prod.snd)).Nodup := by
  rw [List.map_append, List.nodup_append]
  refine ⟨hb, reservedTokens_ids_nodup lo hi, ?_⟩
  intro a ha hmem
  rw [reservedTokens_ids, List.mem_range'_1] at hmem
  have := hlt a ha
  omega

/-- The builder succeeds exactly when the invariants hold, yielding the fully
assembled tokenizer. -/
theorem CoreBPE.new_ok {vocab : Vocab} {specials : List (String × Nat)} {pat : String}
    (h1 : (specials.map Prod.snd).Nodup)
    (h2 : ∀ id ∈ specials.map Prod.snd, id ∉ vocab.map Prod.snd) :
    CoreBPE.new vocab specials pat = .ok ⟨vocab, specials, pat⟩ := by
  rw [CoreBPE.new, if_pos ⟨h1, h2⟩]

/-- Once the name resolved and the vocabulary parsed, the load is exactly the
builder applied to the variant's combined specials and pattern, with builder
errors wrapped in `CoreBPECreationFailed`. -/
theorem load_from_file_eq (env : Env) (path name : String) (enc : Encoding) (vocab : Vocab)
    (hname : Encoding.from_name name = some enc)
    (hparse : env.load_tiktoken_vocab_file path = .ok vocab) :
    load_harmony_encoding_from_file env path name =
      (CoreBPE.new vocab (combinedSpecials env enc) (env.pattern enc)).mapError
        .CoreBPECreationFailed := by
  cases enc <;>
    simp only [load_harmony_encoding_from_file, hname, hparse, combinedSpecials]

/-! ## Claims about the offline loader -/

/-- C1: for a valid vocabulary file (the parse succeeds and the combined
special IDs satisfy the builder's invariants), `load_from_file(path,
"o200k_harmony")` yields a tokenizer whose special-token ID set is exactly
the base special IDs united with the closed interval `[200014, 201088]`,
with no duplicates, and whose special-token count is `|base specials| +
1075`. -/
theorem c1_o200k_harmony_special_set (env : Env) (path : String) (vocab : Vocab)
    (hparse : env.load_tiktoken_vocab_file path = .ok vocab)
    (hids : (((env.special_tokens .O200kHarmony ++ reservedTokens 200014 201088).map
        Prod.snd)).Nodup)
    (hdisj : ∀ id ∈ (env.special_tokens .O200kHarmony ++
        reservedTokens 200014 201088).map Prod.snd, id ∉ vocab.map Prod.snd) :
    ∃ tok : CoreBPE,
      load_harmony_encoding_from_file env path "o200k_harmony" = .ok tok ∧
      (∀ id, id ∈ tok.specialTokens.map Prod.snd ↔
        id ∈ (env.special_tokens .O200kHarmony).map Prod.snd ∨
          (200014 ≤ id ∧ id ≤ 201088)) ∧
      (tok.specialTokens.map Prod.snd).Nodup ∧
      tok.specialTokens.length = (env.special_tokens .O200kHarmony).length + 1075 := by
  have hload := load_from_file_eq env path "o200k_harmony" .O200kHarmony vocab rfl hparse
  rw [show combinedSpecials env .O200kHarmony =
        env.special_tokens .O200kHarmony ++ reservedTokens 200014 201088 from rfl,
      CoreBPE.new_ok hids hdisj] at hload
  refine ⟨_, hload, ?_, hids, ?_⟩
  · intro id
    rw [show (CoreBPE.mk vocab (env.special_tokens .O200kHarmony ++
          reservedTokens 200014 201088) (env.pattern .O200kHarmony)).specialTokens =
          env.special_tokens .O200kHarmony ++ reservedTokens 200014 201088 from rfl,
        List.map_append, List.mem_append, mem_reservedTokens_ids (by norm_num)]
  · rw [show (CoreBPE.mk vocab (env.special_tokens .O200kHarmony ++
          reservedTokens 200014 201088) (env.pattern .O200kHarmony)).specialTokens =
          env.special_tokens .O200kHarmony ++ reservedTokens 200014 201088 from rfl,
        List.length_append, reservedTokens_length]

/-- Environment used to exercise the offline loader at concrete inputs: one
base special token with an ID below both reserved ranges, the empty
vocabulary, and a parser that accepts every path. -/
def envW : Env where
  special_tokens := fun _ => [("<|endoftext|>", 100)]
  pattern := fun _ => "pat"
  load_tiktoken_vocab_file := fun _ => .ok []

/-- C1 witness: the o200k_harmony special-set property at a concrete
environment. -/
theorem c1_o200k_harmony_special_set_witness :
    ∃ tok : CoreBPE,
      load_harmony_encoding_from_file envW "vocab.tiktoken" "o200k_harmony" = .ok tok ∧
      (∀ id, id ∈ tok.specialTokens.map Prod.snd ↔
        id ∈ (envW.special_tokens .O200kHarmony).map Prod.snd ∨
          (200014 ≤ id ∧ id ≤ 201088)) ∧
      (tok.specialTokens.map Prod.snd).Nodup ∧
      tok.specialTokens.length = (envW.special_tokens .O200kHarmony).length + 1075 :=
  c1_o200k_harmony_special_set envW "vocab.tiktoken" [] rfl
    (nodup_base_append_reserved _ 200014 201088 (by decide) (by decide))
    (by simp [envW])

/-- C2: an unknown encoding name fails with `UnknownEncodingName(name)` for
every parser behavior (so the failure is never a file-not-found or parse
error), and the invocation trace stops at catalog resolution: the
vocabulary-file parser — the only filesystem access — is not invoked. -/
theorem c2_unknown_name_fails_fast (env : Env) (path name : String)
    (h : Encoding.from_name name = none) :
    load_harmony_encoding_from_file env path name =
      .error (.UnknownEncodingName name) ∧
    load_from_file_events env path name = [.resolveCatalog] ∧
    Event.vocabFileRead ∉ load_from_file_events env path name := by
  refine ⟨?_, ?_, ?_⟩ <;>
    simp [load_harmony_encoding_from_file, load_from_file_events, h]

/-- C2 witness: a concrete unknown name at a concrete environment. -/
theorem c2_unknown_name_fails_fast_witness :
    load_harmony_encoding_from_file envW "no/such/file" "gpt2" =
      .error (.UnknownEncodingName "gpt2") ∧
    load_from_file_events envW "no/such/file" "gpt2" = [.resolveCatalog] ∧
    Event.vocabFileRead ∉ load_from_file_events envW "no/such/file" "gpt2" :=
  c2_unknown_name_fails_fast envW "no/such/file" "gpt2" rfl

/-- C3: whenever the builder reports an invariant violation, the load fails
with `CoreBPECreationFailed` wrapping the builder's error and returns no
tokenizer value. -/
theorem c3_builder_error_surfaces (env : Env) (path name : String) (enc : Encoding)
    (vocab : Vocab) (e : String)
    (hname : Encoding.from_name name = some enc)
    (hparse : env.load_tiktoken_vocab_file path = .ok vocab)
    (hbuild : CoreBPE.new vocab (combinedSpecials env enc) (env.pattern enc) = .error e) :
    load_harmony_encoding_from_file env path name =
      .error (.CoreBPECreationFailed e) ∧
    ∀ tok : CoreBPE, load_harmony_encoding_from_file env path name ≠ .ok tok := by
  have hload := load_from_file_eq env path name enc vocab hname hparse
  rw [hbuild] at hload
  exact ⟨hload, fun tok h => by rw [hload] at h; exact Except.noConfusion h⟩

/-- Environment whose base special tokens carry a duplicated ID, so the
builder rejects every construction for the default-style variant. -/
def envDup : Env where
  special_tokens := fun _ => [("<|a|>", 5), ("<|b|>", 5)]
  pattern := fun _ => "pat"
  load_tiktoken_vocab_file := fun _ => .ok []

/-- C3 witness: a duplicate special-token ID at a concrete environment makes
the load fail with `CoreBPECreationFailed`. -/
theorem c3_builder_error_surfaces_witness :
    load_harmony_encoding_from_file envDup "vocab.tiktoken" "o200k_base" =
      .error (.CoreBPECreationFailed
        "special token id duplicated or colliding with a vocabulary rank") ∧
    ∀ tok : CoreBPE,
      load_harmony_encoding_from_file envDup "vocab.tiktoken" "o200k_base" ≠ .ok tok :=
  c3_builder_error_surfaces envDup "vocab.tiktoken" "o200k_base" .O200kBase [] _ rfl rfl
    (by
      rw [CoreBPE.new, if_neg]
      intro hc
      have := hc.1
      rw [show combinedSpecials envDup .O200kBase =
            [("<|a|>", 5), ("<|b|>", 5)] ++ reservedTokens 199998 201088 from rfl,
          List.map_append, List.nodup_append] at this
      simp at this)

/-- C4: for a resolvable encoding name, a parser failure surfaces as
`InvalidTiktokenVocabFile` wrapping the parser's error, and no tokenizer is
constructed. -/
theorem c4_parse_error_surfaces (env : Env) (path name : String) (enc : Encoding)
    (e : String)
    (hname : Encoding.from_name name = some enc)
    (hparse : env.load_tiktoken_vocab_file path = .error e) :
    load_harmony_encoding_from_file env path name =
      .error (.InvalidTiktokenVocabFile e) ∧
    ∀ tok : CoreBPE, load_harmony_encoding_from_file env path name ≠ .ok tok := by
  have hload : load_harmony_encoding_from_file env path name =
      .error (.InvalidTiktokenVocabFile e) := by
    cases enc <;> simp only [load_harmony_encoding_from_file, hname, hparse]
  exact ⟨hload, fun tok h => by rw [hload] at h; exact Except.noConfusion h⟩

/-- Environment whose parser rejects every path. -/
def envBad : Env where
  special_tokens := fun _ => []
  pattern := fun _ => "pat"
  load_tiktoken_vocab_file := fun _ => .error "malformed vocab line"

/-- C4 witness: a concrete parse failure is surfaced as
`InvalidTiktokenVocabFile`. -/
theorem c4_parse_error_surfaces_witness :
    load_harmony_encoding_from_file envBad "corrupt.tiktoken" "o200k_harmony" =
      .error (.InvalidTiktokenVocabFile "malformed vocab line") ∧
    ∀ tok : CoreBPE,
      load_harmony_encoding_from_file envBad "corrupt.tiktoken" "o200k_harmony" ≠
        .ok tok :=
  c4_parse_error_surfaces envBad "corrupt.tiktoken" "o200k_harmony" .O200kHarmony
    "malformed vocab line" rfl rfl

/-- C5: the offline path never invokes the network-capable pipeline, for
every environment, path and name — the offline no-network contract. -/
theorem c5_no_network_access (env : Env) (path name : String) :
    Event.networkPipeline ∉ load_from_file_events env path name := by
  rcases hF : Encoding.from_name name with _ | enc <;>
    rcases hP : env.load_tiktoken_vocab_file path with e | v <;>
      simp [load_from_file_events, hF, hP]

/-! ## Claims about the online loader -/

/-- C6: under normal operation of the lock (the mutex is not poisoned),
`load_safe(name)` returns exactly the result the name-to-tokenizer pipeline
produces for `name` — the pipeline's tokenizer on success, the pipeline's
error unmodified on failure — and the guard ends released. -/
theorem c6_safe_returns_pipeline_result (env : OnlineEnv) (s : MutexState)
    (name : String) (h : s ≠ .poisoned) :
    load_harmony_encoding_safe env s name =
      .completed (env.load_from_name name) .unlocked := by
  cases s with
  | uninit => rfl
  | unlocked => rfl
  | poisoned => exact absurd rfl h

/-- Pipeline stub returning a typed error for every name, exercising the
error path of the online loader. -/
def envErr : OnlineEnv where
  load_from_name := fun n => .error (.UnknownEncodingName n)

/-- C6 witness: a first call (mutex not yet created) returns exactly the
pipeline's result. -/
theorem c6_safe_returns_pipeline_result_witness :
    load_harmony_encoding_safe envErr .uninit "o200k_harmony" =
      .completed (envErr.load_from_name "o200k_harmony") .unlocked :=
  c6_safe_returns_pipeline_result envErr .uninit "o200k_harmony" (by decide)

/-- C7: every completed `load_safe` call — whether it returns a tokenizer or
an error — leaves the global load guard released: the scoped guard is
dropped on every exit path. -/
theorem c7_guard_released_on_completion (env : OnlineEnv) (s : MutexState)
    (name : String) (r : Except LoadError CoreBPE) (fin : MutexState)
    (h : load_harmony_encoding_safe env s name = .completed r fin) :
    fin = .unlocked := by
  cases s <;> simp [load_harmony_encoding_safe] at h <;> exact h.2.symm

/-- C7 witness: the guard is released after a completed call whose pipeline
result is an error. -/
theorem c7_guard_released_on_completion_witness :
    (MutexState.unlocked : MutexState) = .unlocked :=
  c7_guard_released_on_completion envErr .unlocked "o200k_base"
    (.error (.UnknownEncodingName "o200k_base")) .unlocked rfl

/-- C9: a poisoned global load guard is fatal for every subsequent
`load_safe` call: `.lock().unwrap()` panics, so the call completes with
neither a tokenizer nor a typed error value. -/
theorem c9_poisoned_lock_is_fatal (env : OnlineEnv) (name : String) :
    load_harmony_encoding_safe env .poisoned name = .panicked ∧
    ∀ (r : Except LoadError CoreBPE) (fin : MutexState),
      load_harmony_encoding_safe env .poisoned name ≠ .completed r fin := by
  refine ⟨rfl, fun r fin h => ?_⟩
  exact SafeOutcome.noConfusion h

/-! ## Claim about concurrent online loads -/

/-- C8: mutual exclusion of the guarded sections — in every reachable state
of the interleaving model, at most one thread is inside the critical section
(which spans resolution, download/cache and construction), regardless of the
names the threads requested. -/
theorem c8_mutual_exclusion (s : Sys) (hr : SysReachable s) (t1 t2 : Nat)
    (h1 : s.phase t1 = .critical) (h2 : s.phase t2 = .critical) : t1 = t2 := by
  have a1 := sysReachable_critical_holds_lock hr t1 h1
  have a2 := sysReachable_critical_holds_lock hr t2 h2
  exact Option.some.inj (a1.symm.trans a2)

/-- A concrete initial system: two pending loads with distinct names. -/
def sys0 : Sys where
  lock := none
  phase := fun _ => .acquiring
  reqName := fun t => if t = 0 then "o200k_harmony" else "o200k_base"

/-- The system after thread 0 acquires the guard and enters the critical
section. -/
def sys1 : Sys where
  lock := some 0
  phase := fun u => if u = 0 then .critical else sys0.phase u
  reqName := sys0.reqName

/-- C8 witness: the mutual-exclusion theorem applied in a concrete reachable
state in which thread 0 holds the critical section. -/
theorem c8_mutual_exclusion_witness : (0 : Nat) = 0 :=
  c8_mutual_exclusion sys1
    (SysReachable.step sys0 sys1
      (SysReachable.init sys0 ⟨rfl, fun _ => rfl⟩)
      (SysStep.acquire sys0 0 rfl rfl))
    0 0 rfl rfl

/-! ## Claim about the o200k_base reserved range -/

/-- C10: for the "o200k_base" variant the reserved interval is `[199998,
201088]` (1091 values): on a valid vocabulary file the load succeeds and the
tokenizer's special-token set is the base specials followed by one synthetic
token per integer in the interval, each named `<|reserved_{id}|>` and mapped
to that id. -/
theorem c10_o200k_base_reserved_range (env : Env) (path : String) (vocab : Vocab)
    (hparse : env.load_tiktoken_vocab_file path = .ok vocab)
    (hids : (((env.special_tokens .O200kBase ++ reservedTokens 199998 201088).map
        Prod.snd)).Nodup)
    (hdisj : ∀ id ∈ (env.special_tokens .O200kBase ++
        reservedTokens 199998 201088).map Prod.snd, id ∉ vocab.map Prod.snd) :
    ∃ tok : CoreBPE,
      load_harmony_encoding_from_file env path "o200k_base" = .ok tok ∧
      tok.specialTokens =
        env.special_tokens .O200kBase ++ reservedTokens 199998 201088 ∧
      (reservedTokens 199998 201088).length = 1091 ∧
      (∀ p ∈ reservedTokens 199998 201088,
        p.1 = "<|reserved_" ++ toString p.2 ++ "|>" ∧ 199998 ≤ p.2 ∧ p.2 ≤ 201088) ∧
      (∀ id, 199998 ≤ id → id ≤ 201088 →
        ("<|reserved_" ++ toString id ++ "|>", id) ∈ tok.specialTokens) := by
  have hload := load_from_file_eq env path "o200k_base" .O200kBase vocab rfl hparse
  rw [show combinedSpecials env .O200kBase =
        env.special_tokens .O200kBase ++ reservedTokens 199998 201088 from rfl,
      CoreBPE.new_ok hids hdisj] at hload
  refine ⟨_, hload, rfl, ?_, ?_, ?_⟩
  · rw [reservedTokens_length]
  · intro p hp
    rw [reservedTokens] at hp
    obtain ⟨id, hid, rfl⟩ := List.mem_map.mp hp
    rw [List.mem_range'_1] at hid
    exact ⟨rfl, by omega, by omega⟩
  · intro id h1 h2
    exact List.mem_append_right _ (mem_reservedTokens_of h1 h2)

/-- C10 witness: the o200k_base reserved-range property at a concrete
environment. -/
theorem c10_o200k_base_reserved_range_witness :
    ∃ tok : CoreBPE,
      load_harmony_encoding_from_file envW "vocab.tiktoken" "o200k_base" = .ok tok ∧
      tok.specialTokens =
        envW.special_tokens .O200kBase ++ reservedTokens 199998 201088 ∧
      (reservedTokens 199998 201088).length = 1091 ∧
      (∀ p ∈ reservedTokens 199998 201088,
        p.1 = "<|reserved_" ++ toString p.2 ++ "|>" ∧ 199998 ≤ p.2 ∧ p.2 ≤ 201088) ∧
      (∀ id, 199998 ≤ id → id ≤ 201088 →
        ("<|reserved_" ++ toString id ++ "|>", id) ∈ tok.specialTokens) :=
  c10_o200k_base_reserved_range envW "vocab.tiktoken" [] rfl
    (nodup_base_append_reserved _ 199998 201088 (by decide) (by decide))
    (by simp [envW])

end Harmony
